import Mathlib

/-!
Shallow embedding of the particle-simulation engine of `src/engine.py`,
`src/randomizer.py` and `src/utils.py` (repository `dark/fish-simulator`).

Numeric model: the Python code computes with 64-bit floats; the embedding
idealises them as elements of an arbitrary `LinearOrderedField K`.  The two
transcendental library operations used by the code are passed as explicit
function parameters:

* `sqrt : K → K` stands for the square root used by
  `scipy.spatial.distance.pdist/cdist` and by `np.sqrt` inside
  `Utils.inplace_clip_by_abs`;
* `powK : K → K → K` stands for `math.pow` (used once, for
  `v_decay ** timestep`).

The numpy pseudo-random generator is modelled by an abstract sample stream
`sample : ℕ → ℕ → K`, where `sample seed i` is the `i`-th element of the
i.i.d.-uniform-on-`[0,1)` stream produced by `np.random.default_rng seed`.
A `Randomizer` value records the seed and the number of samples consumed so
far; drawing a `(rows, cols)` matrix consumes `rows * cols` samples filled
row-major, exactly like `Generator.random(size=(rows, cols))`.
-/

namespace FishSim

/-- Matrices of shape `(n, d)` over the scalar type `K`, the embedding of the
`numpy` arrays used throughout `src/engine.py`. -/
abbrev Mat (n d : ℕ) (K : Type) := Matrix (Fin n) (Fin d) K

variable {K : Type} {n d m : ℕ}

/-- `EPSILON = 0.001` from `src/randomizer.py` line 24. -/
def EPSILON (K : Type) [DivisionRing K] : K := 1 / 1000

/-- `SEED = 133713371337` from `src/randomizer.py` line 25. -/
def SEED : ℕ := 133713371337

/-- The state of the numpy PRNG: its seed and the number of uniform samples
consumed so far (`src/randomizer.py`, class `Randomizer`). -/
structure Randomizer where
  seed : ℕ
  idx : ℕ
  deriving DecidableEq

/-- `Randomizer.__init__` (`src/randomizer.py` lines 29-30): a fresh generator
seeded with the fixed default seed, no samples consumed yet. -/
def Randomizer.make : Randomizer := ⟨SEED, 0⟩

/-- `Randomizer.gen_random_matrix` (`src/randomizer.py` lines 37-38):
`(max_value - min_value) * rng.random(size=(n, d)) + min_value`, filled
row-major, consuming `n * d` samples of the stream. -/
def gen_random_matrix [LinearOrderedField K] (sample : ℕ → ℕ → K)
    (r : Randomizer) (rows cols : ℕ)
    (min_value max_value : K) : Mat rows cols K × Randomizer :=
  ((fun i j => (max_value - min_value)
      * sample r.seed (r.idx + i.val * cols + j.val) + min_value),
   ⟨r.seed, r.idx + rows * cols⟩)

/-- `Randomizer.gen_epsilon_matrix` (`src/randomizer.py` lines 32-35). -/
def gen_epsilon_matrix [LinearOrderedField K] (sample : ℕ → ℕ → K)
    (r : Randomizer) (rows cols : ℕ) : Mat rows cols K × Randomizer :=
  gen_random_matrix sample r rows cols (1 - EPSILON K) (1 + EPSILON K)

/-- `State` (`src/engine.py` lines 30-39): particle position/velocity/
acceleration matrices of shape `(n, d)` and predator matrices of shape
`(m, d)`. -/
structure State (n d m : ℕ) (K : Type) where
  p : Mat n d K
  v : Mat n d K
  a : Mat n d K
  pred_p : Mat m d K
  pred_v : Mat m d K
  pred_a : Mat m d K
  deriving DecidableEq

/-- `Config` (`src/engine.py` lines 42-56): the species-wide scalars and the
`(n, 4)` per-individual urgency weight matrix `uw`. -/
structure Config (n : ℕ) (K : Type) where
  v_max : K
  v_decay : K
  a_max : K
  d_max : K
  u_max : K
  u1_p : K
  u2_p : K
  u2_dopt : K
  u4_p : K
  u4_dmax : K
  uw : Matrix (Fin n) (Fin 4) K
  deriving DecidableEq

/-- The engine (`src/engine.py` lines 64-72): owned state, config and PRNG. -/
structure Engine (n d m : ℕ) (K : Type) where
  state : State n d m K
  cfg : Config n K
  rand : Randomizer
  deriving DecidableEq

/-- `Engine.__init__` (`src/engine.py` lines 69-72) on shape-consistent
input: store the state and config, construct a freshly seeded `Randomizer`.
(The shape sanity check of lines 74-87 is modelled separately by
`engine_shapes_ok`, since in this typed embedding the checked shapes are
carried by the types.) -/
def Engine.make (s : State n d m K) (cfg : Config n K) : Engine n d m K :=
  ⟨s, cfg, Randomizer.make⟩

/-- The sanity check of `Engine.__init__` (`src/engine.py` lines 74-87) on raw
shapes: the constructor raises `ValueError` unless `p`, `v`, `a` share their
shape and `uw` has shape `(p.shape[0], 4)`.  `true` means "no error". -/
def engine_shapes_ok (p_shape v_shape a_shape uw_shape : ℕ × ℕ) : Bool :=
  !(p_shape ≠ v_shape || p_shape ≠ a_shape || uw_shape ≠ (p_shape.1, 4))

/-- `Engine.__init__` as a fallible constructor over the typed data: with
shape-consistent (typed) arguments the check of lines 74-87 cannot fire, so
construction always succeeds; no field of `cfg` other than `uw`'s shape is
inspected. -/
def engine_init (s : State n d m K) (cfg : Config n K) :
    Except String (Engine n d m K) :=
  Except.ok (Engine.make s cfg)

/-- `scipy.spatial.distance.squareform(scipy.spatial.distance.pdist(p))`
(`src/engine.py` lines 118-120): the symmetric matrix of pairwise Euclidean
distances. -/
def pdist (sqrt : K → K) [LinearOrderedField K] (p : Mat n d K) :
    Matrix (Fin n) (Fin n) K :=
  fun i j => sqrt (∑ k, (p i k - p j k) ^ 2)

/-- `scipy.spatial.distance.cdist(p, q)` (`src/engine.py` lines 273-275):
the `(n, m)` matrix of cross Euclidean distances. -/
def cdist (sqrt : K → K) [LinearOrderedField K] (p : Mat n d K)
    (q : Mat m d K) : Matrix (Fin n) (Fin m) K :=
  fun i j => sqrt (∑ k, (p i k - q j k) ^ 2)

/-- `Utils.inplace_clip_by_abs` (`src/utils.py` lines 25-31): for each row
whose sum of squares exceeds `max_abs ** 2`, divide the row by
`sqrt(sum_of_squares) / max_abs`; other rows are untouched. -/
def inplace_clip_by_abs (sqrt : K → K) [LinearOrderedField K]
    (input : Mat n d K) (max_abs : K) : Mat n d K :=
  let sum_of_squares : Fin n → K := fun i => ∑ k, input i k ^ 2
  let clipped : Fin n → Prop := fun i => sum_of_squares i > max_abs ^ 2
  let scale_factors : Fin n → K := fun i =>
    if clipped i then sqrt (sum_of_squares i) / max_abs else 1
  fun i k => if clipped i then input i k / scale_factors i else input i k

section EngineOps

variable [LinearOrderedField K]

/-- The `in_range` mask of `Engine._calculate_urgency1` (`src/engine.py`
line 152): strictly positive distance and within sight range. -/
def urgency1_in_range (d_max : K) (distances : Matrix (Fin n) (Fin n) K)
    (i j : Fin n) : Prop :=
  0 < distances i j ∧ distances i j ≤ d_max

instance (d_max : K) (distances : Matrix (Fin n) (Fin n) K) (i j : Fin n) :
    Decidable (urgency1_in_range d_max distances i j) :=
  instDecidableAnd

/-- `np.count_nonzero(in_range, axis=1, keepdims=1)` (`src/engine.py`
line 160): the number of in-range neighbours of particle `i`. -/
def urgency1_count (d_max : K) (distances : Matrix (Fin n) (Fin n) K)
    (i : Fin n) : ℕ :=
  (Finset.univ.filter (fun j => urgency1_in_range d_max distances i j)).card

/-- The masked weight matrix of `Engine._calculate_urgency1` (`src/engine.py`
lines 157-163): `1 / count_i` where in range, `0` elsewhere (`np.divide`
with `where=in_range` over an all-zero `out`). -/
def urgency1_weights (d_max : K) (distances : Matrix (Fin n) (Fin n) K) :
    Matrix (Fin n) (Fin n) K :=
  fun i j => if urgency1_in_range d_max distances i j
    then 1 / (urgency1_count d_max distances i : K) else 0

/-- `Engine._calculate_urgency1` (`src/engine.py` lines 146-172): attraction
toward the weighted baricenter, with multiplicative epsilon noise, the
species-wide factor `u1_p` and column 0 of `uw`. -/
def calculate_urgency1 (sample : ℕ → ℕ → K) (r : Randomizer)
    (s : State n d m K) (cfg : Config n K)
    (distances : Matrix (Fin n) (Fin n) K) : Mat n d K × Randomizer :=
  let weights := urgency1_weights cfg.d_max distances
  let baricenters : Mat n d K := fun i k => ∑ j, weights i j * s.p j k
  let eps := (gen_epsilon_matrix sample r n d).1
  ((fun i k => (baricenters i k - s.p i k) * eps i k * cfg.u1_p * cfg.uw i 0),
   (gen_epsilon_matrix sample r n d).2)

/-- The `in_range` mask of `Engine._calculate_urgency2` (`src/engine.py`
line 188). -/
def urgency2_in_range (u2_dopt : K) (distances : Matrix (Fin n) (Fin n) K)
    (i j : Fin n) : Prop :=
  0 < distances i j ∧ distances i j ≤ u2_dopt

instance (u2_dopt : K) (distances : Matrix (Fin n) (Fin n) K) (i j : Fin n) :
    Decidable (urgency2_in_range u2_dopt distances i j) :=
  instDecidableAnd

/-- The masked weight matrix of `Engine._calculate_urgency2` (`src/engine.py`
lines 190-211): `(u2_dopt - D) / (u2_dopt * D)` where in range, `0`
elsewhere. -/
def urgency2_weights (u2_dopt : K) (distances : Matrix (Fin n) (Fin n) K) :
    Matrix (Fin n) (Fin n) K :=
  fun i j => if urgency2_in_range u2_dopt distances i j
    then (u2_dopt - distances i j) / (u2_dopt * distances i j) else 0

/-- `Engine._calculate_urgency2` (`src/engine.py` lines 174-247): pairwise
repulsion.  The `(n,1,n) @ (n,n,d)` batched matrix product of the source is
the row-wise weighted sum `∑ j, weights i j * (p i - p j)`. -/
def calculate_urgency2 (sample : ℕ → ℕ → K) (r : Randomizer)
    (s : State n d m K) (cfg : Config n K)
    (distances : Matrix (Fin n) (Fin n) K) : Mat n d K × Randomizer :=
  let weights := urgency2_weights cfg.u2_dopt distances
  let eps := (gen_epsilon_matrix sample r n d).1
  ((fun i k =>
      (∑ j, weights i j * (s.p i k - s.p j k)) * eps i k * cfg.u2_p
        * cfg.uw i 1),
   (gen_epsilon_matrix sample r n d).2)

/-- The `in_range` mask of `Engine._calculate_urgency4` (`src/engine.py`
lines 278-280), over particle-to-predator distances. -/
def urgency4_in_range (u4_dmax : K)
    (distances_from_predators : Matrix (Fin n) (Fin m) K)
    (i : Fin n) (j : Fin m) : Prop :=
  0 < distances_from_predators i j ∧ distances_from_predators i j ≤ u4_dmax

instance (u4_dmax : K) (dfp : Matrix (Fin n) (Fin m) K) (i : Fin n)
    (j : Fin m) : Decidable (urgency4_in_range u4_dmax dfp i j) :=
  instDecidableAnd

/-- The masked weight matrix of `Engine._calculate_urgency4` (`src/engine.py`
lines 282-288). -/
def urgency4_weights (u4_dmax : K)
    (distances_from_predators : Matrix (Fin n) (Fin m) K) :
    Matrix (Fin n) (Fin m) K :=
  fun i j => if urgency4_in_range u4_dmax distances_from_predators i j
    then (u4_dmax - distances_from_predators i j)
      / (u4_dmax * distances_from_predators i j) else 0

/-- `Engine._calculate_urgency4` (`src/engine.py` lines 249-308): repulsion
from the predators, scaled by `u4_p` and column 3 of the `(n, 4)` weight
matrix `uw`. -/
def calculate_urgency4 (sqrt : K → K) (sample : ℕ → ℕ → K) (r : Randomizer)
    (s : State n d m K) (cfg : Config n K) : Mat n d K × Randomizer :=
  let distances_from_predators := cdist sqrt s.p s.pred_p
  let weights := urgency4_weights cfg.u4_dmax distances_from_predators
  let eps := (gen_epsilon_matrix sample r n d).1
  ((fun i k =>
      (∑ j, weights i j * (s.p i k - s.pred_p j k)) * eps i k * cfg.u4_p
        * cfg.uw i 3),
   (gen_epsilon_matrix sample r n d).2)

/-- `Engine._step_particles` (`src/engine.py` lines 116-135), in source
order: pairwise distances; the three urgencies (each drawing one `(n, d)`
epsilon matrix); total urgency scaled by `/ u_max * a_max`; in-place norm
clip to `a_max`; a fresh `(n, d)` epsilon matrix multiplied onto the clipped
acceleration; velocity decay by `v_decay ** timestep`, increment by
`a * timestep`, norm clip to `v_max`; position increment by
`v * timestep`. -/
def step_particles (sqrt : K → K) (powK : K → K → K) (sample : ℕ → ℕ → K)
    (e : Engine n d m K) (timestep : K) : Engine n d m K :=
  let s := e.state
  let cfg := e.cfg
  let distances := pdist sqrt s.p
  let u1p := calculate_urgency1 sample e.rand s cfg distances
  let u2p := calculate_urgency2 sample u1p.2 s cfg distances
  let u4p := calculate_urgency4 sqrt sample u2p.2 s cfg
  let u_tot : Mat n d K := fun i k => u1p.1 i k + u2p.1 i k + u4p.1 i k
  let a0 : Mat n d K := fun i k => u_tot i k / cfg.u_max * cfg.a_max
  let a1 := inplace_clip_by_abs sqrt a0 cfg.a_max
  let epsA := gen_epsilon_matrix sample u4p.2 n d
  let a2 : Mat n d K := fun i k => a1 i k * epsA.1 i k
  let v1 : Mat n d K := fun i k => s.v i k * powK cfg.v_decay timestep
  let v2 : Mat n d K := fun i k => v1 i k + a2 i k * timestep
  let v3 := inplace_clip_by_abs sqrt v2 cfg.v_max
  let p1 : Mat n d K := fun i k => s.p i k + v3 i k * timestep
  { e with
    state := { s with p := p1, v := v3, a := a2 }
    rand := epsA.2 }

/-- `Engine._step_predators` (`src/engine.py` lines 137-144): epsilon noise
on the predator acceleration, then plain Euler updates with no decay and no
clipping. -/
def step_predators (sample : ℕ → ℕ → K) (e : Engine n d m K) (timestep : K) :
    Engine n d m K :=
  let s := e.state
  let epsP := gen_epsilon_matrix sample e.rand m d
  let pa : Mat m d K := fun i k => s.pred_a i k * epsP.1 i k
  let pv : Mat m d K := fun i k => s.pred_v i k + pa i k * timestep
  let pp : Mat m d K := fun i k => s.pred_p i k + pv i k * timestep
  { e with
    state := { s with pred_p := pp, pred_v := pv, pred_a := pa }
    rand := epsP.2 }

/-- One loop iteration of `Engine.run` (`src/engine.py` lines 107-108):
particles first, then predators. -/
def sim_step (sqrt : K → K) (powK : K → K → K) (sample : ℕ → ℕ → K)
    (timestep : K) (e : Engine n d m K) : Engine n d m K :=
  step_predators sample (step_particles sqrt powK sample e timestep) timestep

/-- The recording loop of `Engine.run` (`src/engine.py` lines 104-113),
parameterised over the per-iteration step so that the predator-free
variants below share it: starting at iteration number `iter` with `rem`
iterations left, append the post-step snapshot whenever
`iteration > skip_initial_states - 1` (integer arithmetic, as in Python). -/
def run_loop (step : Engine n d m K → Engine n d m K) (skip_initial_states : ℕ) :
    Engine n d m K → ℕ → ℕ → List (State n d m K)
  | _, _, 0 => []
  | e, iter, rem + 1 =>
    let e1 := step e
    (if (iter : ℤ) > (skip_initial_states : ℤ) - 1 then [e1.state] else [])
      ++ run_loop step skip_initial_states e1 (iter + 1) rem

/-- `EngineRunResult` (`src/engine.py` lines 59-62): the run result record,
carrying exactly one field, the list of state snapshots. -/
structure EngineRunResult (n d m : ℕ) (K : Type) where
  states : List (State n d m K)
  deriving DecidableEq

/-- `Engine.run` (`src/engine.py` lines 89-114): record the initial state
iff `skip_initial_states` is not positive, then run `iterations` steps,
recording each post-step snapshot subject to the skip rule. -/
def Engine.run (sqrt : K → K) (powK : K → K → K) (sample : ℕ → ℕ → K)
    (e : Engine n d m K) (timestep : K)
    (iterations : ℕ) (skip_initial_states : ℕ) : EngineRunResult n d m K :=
  ⟨(if skip_initial_states > 0 then [] else [e.state])
    ++ run_loop (sim_step sqrt powK sample timestep) skip_initial_states e 1
        iterations⟩

/-- The keyword parameters of `Engine.run` (`src/engine.py` lines 89-91):
`def run(self, *, timestep, iterations, skip_initial_states=0)`. -/
def run_keyword_params : List String :=
  ["timestep", "iterations", "skip_initial_states"]

/-- The fields of `EngineRunResult` (`src/engine.py` lines 59-62). -/
def engine_run_result_fields : List String := ["states"]

/-- The per-step state update as worded by the specification (claim C1):
`A ← (u1 + u2 + u3) · (a_max / u_max)`, row-norm-clip to `a_max`, multiply
elementwise by a fresh `(n, d)` epsilon matrix; `V ← V · v_decay^timestep`,
`V ← V + A · timestep`, row-norm-clip to `v_max`; `P ← P + V · timestep`.
(The spec's third urgency `u3` is the source's `_calculate_urgency4`.) -/
def step_particles_claim (sqrt : K → K) (powK : K → K → K)
    (sample : ℕ → ℕ → K) (e : Engine n d m K) (timestep : K) :
    Engine n d m K :=
  let s := e.state
  let cfg := e.cfg
  let distances := pdist sqrt s.p
  let u1p := calculate_urgency1 sample e.rand s cfg distances
  let u2p := calculate_urgency2 sample u1p.2 s cfg distances
  let u3p := calculate_urgency4 sqrt sample u2p.2 s cfg
  let A0 : Mat n d K := fun i k =>
    (u1p.1 i k + u2p.1 i k + u3p.1 i k) * (cfg.a_max / cfg.u_max)
  let A1 := inplace_clip_by_abs sqrt A0 cfg.a_max
  let epsA := gen_epsilon_matrix sample u3p.2 n d
  let A2 : Mat n d K := fun i k => A1 i k * epsA.1 i k
  let V1 : Mat n d K := fun i k => s.v i k * powK cfg.v_decay timestep
  let V2 : Mat n d K := fun i k => V1 i k + A2 i k * timestep
  let V3 := inplace_clip_by_abs sqrt V2 cfg.v_max
  let P1 : Mat n d K := fun i k => s.p i k + V3 i k * timestep
  { e with
    state := { s with p := P1, v := V3, a := A2 }
    rand := epsA.2 }

/-- Modelled from the spec (claim C7): the predator-escape urgency as the
claim words it, `u3_i = (masked weighted sum of (P_i - P'_k)) · ε_i · u3_p ·
W[i,2]`, i.e. using column 2 of the weight matrix (the claim fixes K = 3 and
the predator-escape weight in column 2; the species-wide scalar the claim
calls `u3_p` is the source's `u4_p`). -/
def urgency3_claimed (sqrt : K → K) (sample : ℕ → ℕ → K) (r : Randomizer)
    (s : State n d m K) (cfg : Config n K) : Mat n d K × Randomizer :=
  let distances_from_predators := cdist sqrt s.p s.pred_p
  let weights := urgency4_weights cfg.u4_dmax distances_from_predators
  let eps := (gen_epsilon_matrix sample r n d).1
  ((fun i k =>
      (∑ j, weights i j * (s.p i k - s.pred_p j k)) * eps i k * cfg.u4_p
        * cfg.uw i 2),
   (gen_epsilon_matrix sample r n d).2)

/-- The run of a variant engine that performs the particle step but omits
only the predator sub-step (`Engine._step_predators`); the urgency
computations—including the predator-escape one and its noise draw—are kept.
Used to settle claim C6. -/
def run_wo_predator_substep (sqrt : K → K) (powK : K → K → K)
    (sample : ℕ → ℕ → K) (e : Engine n d m K) (timestep : K)
    (iterations : ℕ) (skip_initial_states : ℕ) : EngineRunResult n d m K :=
  ⟨(if skip_initial_states > 0 then [] else [e.state])
    ++ run_loop (fun e1 => step_particles sqrt powK sample e1 timestep)
        skip_initial_states e 1 iterations⟩

/-- Modelled from the spec (claim C6): the per-step update of "a variant
engine that omits predator handling entirely": no predator-escape urgency
(and hence no noise draw for it), no predator sub-step; otherwise identical
to `step_particles`. -/
def step_particles_no_predator_handling (sqrt : K → K) (powK : K → K → K)
    (sample : ℕ → ℕ → K) (e : Engine n d m K) (timestep : K) :
    Engine n d m K :=
  let s := e.state
  let cfg := e.cfg
  let distances := pdist sqrt s.p
  let u1p := calculate_urgency1 sample e.rand s cfg distances
  let u2p := calculate_urgency2 sample u1p.2 s cfg distances
  let u_tot : Mat n d K := fun i k => u1p.1 i k + u2p.1 i k
  let a0 : Mat n d K := fun i k => u_tot i k / cfg.u_max * cfg.a_max
  let a1 := inplace_clip_by_abs sqrt a0 cfg.a_max
  let epsA := gen_epsilon_matrix sample u2p.2 n d
  let a2 : Mat n d K := fun i k => a1 i k * epsA.1 i k
  let v1 : Mat n d K := fun i k => s.v i k * powK cfg.v_decay timestep
  let v2 : Mat n d K := fun i k => v1 i k + a2 i k * timestep
  let v3 := inplace_clip_by_abs sqrt v2 cfg.v_max
  let p1 : Mat n d K := fun i k => s.p i k + v3 i k * timestep
  { e with
    state := { s with p := p1, v := v3, a := a2 }
    rand := epsA.2 }

/-- Modelled from the spec (claim C6): the run of the variant engine that
omits predator handling entirely. -/
def run_no_predator_handling (sqrt : K → K) (powK : K → K → K)
    (sample : ℕ → ℕ → K) (e : Engine n d m K) (timestep : K)
    (iterations : ℕ) (skip_initial_states : ℕ) : EngineRunResult n d m K :=
  ⟨(if skip_initial_states > 0 then [] else [e.state])
    ++ run_loop
        (fun e1 => step_particles_no_predator_handling sqrt powK sample e1
          timestep)
        skip_initial_states e 1 iterations⟩

end EngineOps

/-- Largest natural number whose square does not exceed `a` (linear search;
only used to build `ratSqrt` for concrete witness inputs). -/
def natSqrtBelow (a : ℕ) : ℕ :=
  (((List.range (a + 1)).filter (fun k => k * k ≤ a)).getLast?).getD 0

/-- An executable square root on `ℚ`, exact on every rational that is the
square of a rational.  It instantiates the abstract `sqrt` parameter at the
concrete witness and counterexample inputs below, all of which are chosen so
that the code only ever takes square roots of perfect squares (where
`ratSqrt` agrees with the real square root that `scipy`/`numpy` compute). -/
def ratSqrt (q : ℚ) : ℚ := (natSqrtBelow q.num.toNat : ℚ) / (natSqrtBelow q.den : ℚ)

/-- C1: each particle step computes, in this order: `A` set to
`(u1 + u2 + u3) · (a_max / u_max)`, row-norm-clipped to `a_max`, multiplied
elementwise by a fresh `(n, d)` epsilon matrix; `V` multiplied by the scalar
`v_decay^timestep`, incremented by `A · timestep`, row-norm-clipped to
`v_max`; `P` incremented by `V · timestep`.  Stated as: the source's
`step_particles` equals the step as worded by the claim
(`step_particles_claim`); the two differ syntactically only in
`u_tot / u_max * a_max` versus `u_tot * (a_max / u_max)`, which agree in
exact arithmetic. -/
theorem c1_step_update_order [LinearOrderedField K] (sqrt : K → K)
    (powK : K → K → K) (sample : ℕ → ℕ → K) (e : Engine n d m K)
    (timestep : K) :
    step_particles sqrt powK sample e timestep
      = step_particles_claim sqrt powK sample e timestep := by
  simp only [step_particles, step_particles_claim, div_mul_eq_mul_div,
    mul_div_assoc]


/-- Helper: the number of elements of `List.range N` that are at least `c`. -/
lemma length_filter_range_le (c N : ℕ) :
    ((List.range N).filter (fun j => decide (c ≤ j))).length = N - c := by
  induction N with
  | zero => simp
  | succ N ih =>
    rw [List.range_succ, List.filter_append, List.length_append, ih]
    by_cases h : c ≤ N <;> simp [h] <;> omega

/-- Helper: the recording loop produces exactly the post-step snapshots of
the iterations `iter, iter+1, …, iter+rem-1` that satisfy the skip rule. -/
lemma run_loop_eq_filter [LinearOrderedField K]
    (step : Engine n d m K → Engine n d m K) (skip : ℕ) :
    ∀ (rem : ℕ) (e : Engine n d m K) (iter : ℕ),
      run_loop step skip e iter rem
        = ((List.range rem).filter (fun j => decide (skip ≤ iter + j))).map
            (fun j => (step^[j + 1] e).state) := by
  intro rem
  induction rem with
  | zero => intro e iter; simp [run_loop]
  | succ r ih =>
    intro e iter
    rw [run_loop, ih (step e) (iter + 1)]
    rw [List.range_succ_eq_map, List.filter_cons]
    have htail :
        ((List.range r).filter (fun j => decide (skip ≤ iter + 1 + j))).map
            (fun j => (step^[j + 1] (step e)).state)
          = (((List.range r).map Nat.succ).filter
              (fun j => decide (skip ≤ iter + j))).map
              (fun j => (step^[j + 1] e).state) := by
      rw [List.filter_map, List.map_map]
      have hfun : ((fun j => (step^[j + 1] e).state) ∘ Nat.succ)
          = fun j => (step^[j + 1] (step e)).state := by
        funext j
        simp only [Function.comp_apply, Nat.succ_eq_add_one,
          Function.iterate_succ_apply]
      have hpred : ((fun j => decide (skip ≤ iter + j)) ∘ Nat.succ)
          = fun j => decide (skip ≤ iter + 1 + j) := by
        funext j
        simp only [Function.comp_apply]
        exact decide_eq_decide.mpr (by omega)
      rw [hfun, hpred]
    by_cases h : skip ≤ iter
    · rw [if_pos (by omega : (iter : ℤ) > (skip : ℤ) - 1)]
      rw [if_pos (by simpa using h)]
      rw [htail]
      try simp
    · rw [if_neg (by omega : ¬ ((iter : ℤ) > (skip : ℤ) - 1))]
      rw [if_neg (by simpa using h)]
      rw [htail]
      try simp

/-- Helper: closed form of the snapshot list returned by `Engine.run`. -/
lemma run_states_eq [LinearOrderedField K] (sqrt : K → K) (powK : K → K → K)
    (sample : ℕ → ℕ → K) (e : Engine n d m K) (t : K) (iterations skip : ℕ) :
    (Engine.run sqrt powK sample e t iterations skip).states
      = (if skip = 0 then [e.state] else [])
        ++ ((List.range iterations).filter (fun j => decide (skip ≤ 1 + j))).map
            (fun j => ((sim_step sqrt powK sample t)^[j + 1] e).state) := by
  unfold Engine.run
  rw [run_loop_eq_filter]
  congr 1
  by_cases h : skip = 0 <;> simp [h]

/-- C3: with `skip_initial_states ≤ iterations`, the returned history has
exactly `iterations + 1 - skip_initial_states` snapshots; the initial state
is recorded iff `skip_initial_states = 0`, and the post-step snapshot of
iteration `i` (for `1 ≤ i ≤ iterations`) is recorded iff
`i > skip_initial_states - 1` (integer arithmetic, as in the source). -/
theorem c3_history_skip_policy [LinearOrderedField K] (sqrt : K → K)
    (powK : K → K → K) (sample : ℕ → ℕ → K) (e : Engine n d m K) (t : K)
    (iterations skip : ℕ) (hsk : skip ≤ iterations) :
    (Engine.run sqrt powK sample e t iterations skip).states.length
        = iterations + 1 - skip
      ∧ (Engine.run sqrt powK sample e t iterations skip).states
        = (if skip = 0 then [e.state] else [])
          ++ ((List.range' 1 iterations).filter
                (fun i : ℕ => decide ((i : ℤ) > (skip : ℤ) - 1))).map
              (fun i => ((sim_step sqrt powK sample t)^[i] e).state) := by
  have hchar := run_states_eq sqrt powK sample e t iterations skip
  constructor
  · rw [hchar, List.length_append, List.length_map]
    have hpred : (fun j => decide (skip ≤ 1 + j))
        = (fun j => decide (skip - 1 ≤ j)) := by
      funext j
      exact decide_eq_decide.mpr (by omega)
    rw [hpred, length_filter_range_le]
    by_cases h0 : skip = 0 <;> simp [h0] <;> omega
  · rw [hchar]
    congr 1
    rw [List.range'_eq_map_range, List.filter_map, List.map_map]
    have hp2 : ((fun i : ℕ => decide ((i : ℤ) > (skip : ℤ) - 1)) ∘ (1 + ·))
        = fun j => decide (skip ≤ 1 + j) := by
      funext j
      simp only [Function.comp_apply]
      exact decide_eq_decide.mpr (by omega)
    have hf2 : ((fun i => ((sim_step sqrt powK sample t)^[i] e).state)
          ∘ (1 + ·))
        = fun j => ((sim_step sqrt powK sample t)^[j + 1] e).state := by
      funext j
      simp only [Function.comp_apply]
      rw [Nat.add_comm 1 j]
    rw [hp2, hf2]

/-- A concrete single-particle, one-dimensional, predator-free state used by
the witnesses below. -/
def witness_state : State 1 1 0 ℚ :=
  ⟨fun _ _ => 0, fun _ _ => 0, fun _ _ => 0,
   fun _ _ => 0, fun _ _ => 0, fun _ _ => 0⟩

/-- A concrete all-ones configuration used by the witnesses below. -/
def witness_config : Config 1 ℚ :=
  ⟨1, 1, 1, 1, 1, 1, 1, 1, 1, 1, fun _ _ => 1⟩

/-- The engine built from `witness_state` and `witness_config`. -/
def witness_engine : Engine 1 1 0 ℚ := Engine.make witness_state witness_config

/-- C3 witness: a concrete run with 2 iterations and a skip prelude of 1 has
history length 2 = 2 + 1 - 1. -/
theorem c3_history_skip_policy_witness :
    ((1 : ℕ) ≤ 2)
      ∧ (Engine.run ratSqrt (fun b _ => b) (fun _ _ => 0) witness_engine
          1 2 1).states.length = 2 + 1 - 1 :=
  ⟨by decide,
   (c3_history_skip_policy ratSqrt (fun b _ => b) (fun _ _ => 0)
      witness_engine 1 2 1 (by decide)).1⟩

/-- C4: runs are deterministic: a freshly constructed engine always seeds
its PRNG with the fixed default seed `SEED = 133713371337` and zero samples
consumed, so two independent `run` invocations on engines freshly
constructed from the same state and config yield identical histories. -/
theorem c4_run_deterministic [LinearOrderedField K] (sqrt : K → K)
    (powK : K → K → K) (sample : ℕ → ℕ → K) (s : State n d m K)
    (cfg : Config n K) (t : K) (iterations skip : ℕ) :
    Engine.run sqrt powK sample (Engine.make s cfg) t iterations skip
        = Engine.run sqrt powK sample (Engine.make s cfg) t iterations skip
      ∧ (Engine.make s cfg).rand = ⟨SEED, 0⟩ :=
  ⟨rfl, rfl⟩

/-- C8 (code bug): `Engine.run` in `src/engine.py` accepts no
`return_urgency_vectors` keyword and `EngineRunResult` carries no
`urgencies` field — only `states` — even though in-repo callers
(`src/examples.py` line 124, `src/scene.py` line 278) invoke
`run(..., return_urgency_vectors=True)` and read `results.urgencies`. -/
theorem c8_no_urgency_capture :
    "return_urgency_vectors" ∉ run_keyword_params
      ∧ "urgencies" ∉ engine_run_result_fields
      ∧ "states" ∈ engine_run_result_fields := by
  refine ⟨by decide, by decide, by decide⟩

/-- A configuration violating every scalar bound of claim C9: `v_decay = 2`
is outside `(0, 1]`, `a_max = -1 ≤ 0` and `u_max = 0 ≤ 0`. -/
def c9_bad_config : Config 1 ℚ :=
  ⟨1, 2, -1, 1, 0, 1, 1, 1, 1, 1, fun _ _ => 1⟩

/-- C9 counterexample: the code performs no scalar validation at
construction or at `run` entry: an engine built with `v_decay = 2`,
`a_max = -1` and `u_max = 0` is accepted, and `run` with a non-positive
timestep returns a normal history instead of rejecting. -/
theorem c9_no_scalar_validation :
    c9_bad_config.v_decay = 2 ∧ c9_bad_config.a_max = -1
      ∧ c9_bad_config.u_max = 0
      ∧ engine_init witness_state c9_bad_config
          = Except.ok (Engine.make witness_state c9_bad_config)
      ∧ (Engine.run ratSqrt (fun b _ => b) (fun _ _ => 0)
          (Engine.make witness_state c9_bad_config) (-1) 0 0).states.length
          = 1 :=
  ⟨rfl, rfl, rfl, rfl, rfl⟩

/-- C9 (amended): construction fails exactly when `p`, `v`, `a` disagree in
shape or `uw` is not `(N, 4)`; no other validation exists — in particular
the scalar parameters are never inspected, and `run` performs no entry
checks. -/
theorem c9_validation_is_shapes_only [LinearOrderedField K]
    (p_s v_s a_s uw_s : ℕ × ℕ) (s : State n d m K) (cfg : Config n K) :
    (engine_shapes_ok p_s v_s a_s uw_s = true
        ↔ p_s = v_s ∧ p_s = a_s ∧ uw_s = (p_s.1, 4))
      ∧ engine_init s cfg = Except.ok (Engine.make s cfg) := by
  constructor
  · rw [engine_shapes_ok]
    simp [and_assoc]
  · rfl

section UwCongr

variable [LinearOrderedField K] (sqrt : K → K) (powK : K → K → K)
variable (sample : ℕ → ℕ → K)

/-- Helper: `calculate_urgency1` reads only column 0 of `uw`. -/
lemma urgency1_uw_congr (r : Randomizer) (s : State n d m K)
    (cfg : Config n K) (uw2 : Matrix (Fin n) (Fin 4) K)
    (h0 : ∀ i, uw2 i 0 = cfg.uw i 0) (D : Matrix (Fin n) (Fin n) K) :
    calculate_urgency1 sample r s { cfg with uw := uw2 } D
      = calculate_urgency1 sample r s cfg D := by
  unfold calculate_urgency1
  refine Prod.ext ?_ rfl
  funext i k
  simp only
  rw [h0 i]

/-- Helper: `calculate_urgency2` reads only column 1 of `uw`. -/
lemma urgency2_uw_congr (r : Randomizer) (s : State n d m K)
    (cfg : Config n K) (uw2 : Matrix (Fin n) (Fin 4) K)
    (h1 : ∀ i, uw2 i 1 = cfg.uw i 1) (D : Matrix (Fin n) (Fin n) K) :
    calculate_urgency2 sample r s { cfg with uw := uw2 } D
      = calculate_urgency2 sample r s cfg D := by
  unfold calculate_urgency2
  refine Prod.ext ?_ rfl
  funext i k
  simp only
  rw [h1 i]

/-- Helper: `calculate_urgency4` reads only column 3 of `uw`. -/
lemma urgency4_uw_congr (r : Randomizer) (s : State n d m K)
    (cfg : Config n K) (uw2 : Matrix (Fin n) (Fin 4) K)
    (h3 : ∀ i, uw2 i 3 = cfg.uw i 3) :
    calculate_urgency4 sqrt sample r s { cfg with uw := uw2 }
      = calculate_urgency4 sqrt sample r s cfg := by
  unfold calculate_urgency4
  refine Prod.ext ?_ rfl
  funext i k
  simp only
  rw [h3 i]

variable (cfg : Config n K) (uw2 : Matrix (Fin n) (Fin 4) K)

/-- Helper: one simulation iteration started from a config altered only in
column 2 of `uw` yields the same state and PRNG, carrying the altered
config along. -/
lemma sim_step_uw_congr
    (h0 : ∀ i, uw2 i 0 = cfg.uw i 0) (h1 : ∀ i, uw2 i 1 = cfg.uw i 1)
    (h3 : ∀ i, uw2 i 3 = cfg.uw i 3) (t : K) (s : State n d m K)
    (r : Randomizer) :
    sim_step sqrt powK sample t ⟨s, { cfg with uw := uw2 }, r⟩
      = { sim_step sqrt powK sample t ⟨s, cfg, r⟩ with
          cfg := { cfg with uw := uw2 } } := by
  unfold sim_step step_predators step_particles
  simp only
  rw [urgency1_uw_congr sample r s cfg uw2 h0,
    urgency2_uw_congr sample _ s cfg uw2 h1,
    urgency4_uw_congr sqrt sample _ s cfg uw2 h3]

/-- Helper: iterating `sim_step` from a config altered only in column 2 of
`uw` yields the same state and PRNG at every step. -/
lemma iterate_uw_congr
    (h0 : ∀ i, uw2 i 0 = cfg.uw i 0) (h1 : ∀ i, uw2 i 1 = cfg.uw i 1)
    (h3 : ∀ i, uw2 i 3 = cfg.uw i 3) (t : K) :
    ∀ (j : ℕ) (s : State n d m K) (r : Randomizer),
      (sim_step sqrt powK sample t)^[j] ⟨s, { cfg with uw := uw2 }, r⟩
        = { (sim_step sqrt powK sample t)^[j] ⟨s, cfg, r⟩ with
            cfg := { cfg with uw := uw2 } } := by
  intro j
  induction j with
  | zero => intro s r; rfl
  | succ j ih =>
    intro s r
    rw [Function.iterate_succ_apply, Function.iterate_succ_apply,
      sim_step_uw_congr sqrt powK sample cfg uw2 h0 h1 h3]
    have hsplit : sim_step sqrt powK sample t ⟨s, cfg, r⟩
        = ⟨(sim_step sqrt powK sample t ⟨s, cfg, r⟩).state, cfg,
           (sim_step sqrt powK sample t ⟨s, cfg, r⟩).rand⟩ := rfl
    rw [hsplit]
    exact ih _ _

/-- C10: `run` is independent of column 2 (0-indexed) of the per-individual
weight matrix `uw`: the urgency computations read only columns 0, 1 and 3,
so two runs from equal initial states whose configs agree everywhere except
possibly in `uw[:, 2]` produce identical histories. -/
theorem c10_uw_column2_unused [LinearOrderedField K2] (sqrt2 : K2 → K2)
    (powK2 : K2 → K2 → K2) (sample2 : ℕ → ℕ → K2) {n2 d2 m2 : ℕ}
    (s : State n2 d2 m2 K2) (cfg : Config n2 K2)
    (uw2 : Matrix (Fin n2) (Fin 4) K2)
    (h0 : ∀ i, uw2 i 0 = cfg.uw i 0) (h1 : ∀ i, uw2 i 1 = cfg.uw i 1)
    (h3 : ∀ i, uw2 i 3 = cfg.uw i 3) (t : K2) (iterations skip : ℕ) :
    Engine.run sqrt2 powK2 sample2 (Engine.make s { cfg with uw := uw2 }) t
        iterations skip
      = Engine.run sqrt2 powK2 sample2 (Engine.make s cfg) t iterations
          skip := by
  have hne : ∀ j : ℕ,
      ((sim_step sqrt2 powK2 sample2 t)^[j + 1]
          (Engine.make s { cfg with uw := uw2 })).state
        = ((sim_step sqrt2 powK2 sample2 t)^[j + 1]
            (Engine.make s cfg)).state := by
    intro j
    rw [show Engine.make s { cfg with uw := uw2 }
        = ⟨s, { cfg with uw := uw2 }, Randomizer.make⟩ from rfl]
    rw [iterate_uw_congr sqrt2 powK2 sample2 cfg uw2 h0 h1 h3 t (j + 1) s
      Randomizer.make]
    rfl
  have hrun := run_states_eq sqrt2 powK2 sample2
    (Engine.make s { cfg with uw := uw2 }) t iterations skip
  have hrun2 := run_states_eq sqrt2 powK2 sample2 (Engine.make s cfg) t
    iterations skip
  have hstates : (Engine.run sqrt2 powK2 sample2
        (Engine.make s { cfg with uw := uw2 }) t iterations skip).states
      = (Engine.run sqrt2 powK2 sample2 (Engine.make s cfg) t iterations
          skip).states := by
    rw [hrun, hrun2, funext hne]
    rfl
  cases hr1 : Engine.run sqrt2 powK2 sample2
    (Engine.make s { cfg with uw := uw2 }) t iterations skip
  cases hr2 : Engine.run sqrt2 powK2 sample2 (Engine.make s cfg) t
    iterations skip
  rw [hr1, hr2] at hstates
  simpa using hstates

end UwCongr

/-- A variant of `witness_config` that differs from it exactly in column 2
of `uw`. -/
def witness_config_col2 : Matrix (Fin 1) (Fin 4) ℚ :=
  fun _ j => if j = 2 then 5 else 1

/-- C10 witness: two concrete configs differing exactly in `uw[:, 2]`
produce identical histories. -/
theorem c10_uw_column2_unused_witness :
    Engine.run ratSqrt (fun b _ => b) (fun _ _ => 0)
        (Engine.make witness_state
          { witness_config with uw := witness_config_col2 }) 1 2 0
      = Engine.run ratSqrt (fun b _ => b) (fun _ _ => 0)
          (Engine.make witness_state witness_config) 1 2 0 :=
  c10_uw_column2_unused ratSqrt (fun b _ => b) (fun _ _ => 0) witness_state
    witness_config witness_config_col2 (by decide) (by decide) (by decide)
    1 2 0

/-- Helper: with no predators, the predator-escape urgency field is the
zero field (the weighted sum over the empty predator set vanishes). -/
lemma urgency4_no_predators [LinearOrderedField K] (sqrt : K → K)
    (sample : ℕ → ℕ → K) (r : Randomizer) (s : State n d 0 K)
    (cfg : Config n K) :
    (calculate_urgency4 sqrt sample r s cfg).1 = fun _ _ => (0 : K) := by
  funext i k
  unfold calculate_urgency4
  simp

/-- Helper: with no predators, the predator sub-step is the identity on the
whole engine; in particular its `(0, d)` epsilon draw consumes no samples
of the noise stream. -/
lemma step_predators_no_predators [LinearOrderedField K]
    (sample : ℕ → ℕ → K) (e : Engine n d 0 K) (t : K) :
    step_predators sample e t = e := by
  cases e with
  | mk st cfg0 r0 =>
    cases st
    cases r0
    unfold step_predators
    simp only [Engine.mk.injEq, State.mk.injEq, Randomizer.mk.injEq,
      true_and, and_true, eq_self_iff_true]
    refine ⟨⟨?_, ?_, ?_⟩, ?_⟩ <;>
      first
        | exact funext fun i => i.elim0
        | simp [gen_epsilon_matrix, gen_random_matrix]

/-- C6 (amended): with an empty predator set (`m = 0`), the predator-escape
urgency field is exactly zero, the predator sub-step is the identity on the
whole engine (its epsilon draw has shape `(0, d)` and so consumes no
samples), and `run` coincides with the variant that omits only the predator
sub-step.  (The claim's stronger variant, omitting predator handling
entirely — including the predator-escape computation and its `(n, d)` noise
draw — is refuted separately: that draw shifts the noise stream.) -/
theorem c6_zero_predator_equivalence [LinearOrderedField K] (sqrt : K → K)
    (powK : K → K → K) (sample : ℕ → ℕ → K) (t : K) :
    (∀ (r : Randomizer) (s : State n d 0 K) (cfg : Config n K),
        (calculate_urgency4 sqrt sample r s cfg).1 = fun _ _ => (0 : K))
      ∧ (∀ e : Engine n d 0 K, step_predators sample e t = e)
      ∧ (∀ (e : Engine n d 0 K) (iterations skip : ℕ),
          Engine.run sqrt powK sample e t iterations skip
            = run_wo_predator_substep sqrt powK sample e t iterations
                skip) := by
  refine ⟨fun r s cfg => urgency4_no_predators sqrt sample r s cfg,
    fun e => step_predators_no_predators sample e t, ?_⟩
  intro e iterations skip
  have hss : sim_step sqrt powK sample t
      = (fun e1 : Engine n d 0 K =>
          step_particles sqrt powK sample e1 t) :=
    funext fun e1 => step_predators_no_predators sample _ t
  unfold Engine.run run_wo_predator_substep
  rw [hss]

/-- C5 (amended): in each urgency computation the `in_range` mask requires
strictly positive distance, so each weight divisor is nonzero where the mask
holds (the cohesion neighbour count is positive, and the `u2`/`u4`
denominators are positive); the diagonal of the pairwise-distance matrix is
excluded, so a particle never interacts with itself; and for a particle with
no in-range neighbour the whole cohesion weight row stays zero — but its
baricenter is then the origin, so its cohesion urgency is
`(0 - P_i) · ε_i · u1_p · W[i,0]`, a pull toward the origin, which is zero
only when `P_i` is the origin (not in general, refuting the claim's "exactly
zero"). -/
theorem c5_mask_guards_and_isolated [LinearOrderedField K] (sqrt : K → K)
    (sample : ℕ → ℕ → K) (r : Randomizer) (s : State n d m K)
    (cfg : Config n K) (D : Matrix (Fin n) (Fin n) K)
    (DP : Matrix (Fin n) (Fin m) K) :
    (∀ i j, urgency1_in_range cfg.d_max D i j
        → 0 < ((urgency1_count cfg.d_max D i : ℕ) : K))
      ∧ (∀ i j, urgency2_in_range cfg.u2_dopt D i j
          → cfg.u2_dopt * D i j ≠ 0)
      ∧ (∀ i j, urgency4_in_range cfg.u4_dmax DP i j
          → cfg.u4_dmax * DP i j ≠ 0)
      ∧ (sqrt 0 = 0 → ∀ (p : Mat n d K) (i : Fin n),
          ¬ urgency1_in_range cfg.d_max (pdist sqrt p) i i
            ∧ ¬ urgency2_in_range cfg.u2_dopt (pdist sqrt p) i i)
      ∧ (∀ i, (∀ j, ¬ urgency1_in_range cfg.d_max D i j)
          → (∀ j, urgency1_weights cfg.d_max D i j = 0)
            ∧ ∀ k, (calculate_urgency1 sample r s cfg D).1 i k
                = (0 - s.p i k) * (gen_epsilon_matrix sample r n d).1 i k
                    * cfg.u1_p * cfg.uw i 0) := by
  refine ⟨?_, ?_, ?_, ?_, ?_⟩
  · intro i j hin
    have hmem : j ∈ Finset.univ.filter
        (fun j2 => urgency1_in_range cfg.d_max D i j2) :=
      Finset.mem_filter.mpr ⟨Finset.mem_univ j, hin⟩
    have hpos : 0 < urgency1_count cfg.d_max D i :=
      Finset.card_pos.mpr ⟨j, hmem⟩
    exact_mod_cast hpos
  · intro i j hin
    exact (mul_pos (lt_of_lt_of_le hin.1 hin.2) hin.1).ne'
  · intro i j hin
    exact (mul_pos (lt_of_lt_of_le hin.1 hin.2) hin.1).ne'
  · intro hs0 p i
    have hd : pdist sqrt p i i = 0 := by
      unfold pdist
      rw [show (∑ k, (p i k - p i k) ^ 2) = 0 by simp]
      exact hs0
    constructor
    · intro h
      exact lt_irrefl (0 : K) (hd ▸ h.1)
    · intro h
      exact lt_irrefl (0 : K) (hd ▸ h.1)
  · intro i hiso
    have hw : ∀ j, urgency1_weights cfg.d_max D i j = 0 := by
      intro j
      unfold urgency1_weights
      rw [if_neg (hiso j)]
    refine ⟨hw, ?_⟩
    intro k
    unfold calculate_urgency1
    simp only
    rw [Finset.sum_eq_zero (fun j _ => by rw [hw j, zero_mul])]

section ClipBounds

variable [LinearOrderedField K] (sqrt : K → K)

/-- Helper: a row sum of squares is nonnegative. -/
lemma sumsq_nonneg (X : Mat n d K) (i : Fin n) : 0 ≤ ∑ k, X i k ^ 2 :=
  Finset.sum_nonneg fun k _ => sq_nonneg (X i k)

/-- Helper: after `inplace_clip_by_abs` with a positive bound, every row sum
of squares is at most the squared bound (clipped rows land exactly on it,
others were already within it). -/
lemma clip_sumsq_le
    (hsqrt : ∀ x : K, 0 ≤ x → 0 ≤ sqrt x ∧ sqrt x ^ 2 = x)
    (X : Mat n d K) (mx : K) (hmx : 0 < mx) (i : Fin n) :
    ∑ k, (inplace_clip_by_abs sqrt X mx) i k ^ 2 ≤ mx ^ 2 := by
  unfold inplace_clip_by_abs
  simp only
  by_cases hcl : (∑ k, X i k ^ 2) > mx ^ 2
  · have hss : 0 ≤ ∑ k, X i k ^ 2 := sumsq_nonneg X i
    have hs2 : (sqrt (∑ k, X i k ^ 2)) ^ 2 = ∑ k, X i k ^ 2 :=
      (hsqrt _ hss).2
    have hsspos : 0 < ∑ k, X i k ^ 2 := lt_of_le_of_lt (sq_nonneg mx) hcl
    have hssne : (∑ k, X i k ^ 2) ≠ 0 := hsspos.ne'
    simp only [if_pos hcl]
    have hrw : ∀ k : Fin d,
        (X i k / (sqrt (∑ k2, X i k2 ^ 2) / mx)) ^ 2
          = X i k ^ 2 / ((∑ k2, X i k2 ^ 2) / mx ^ 2) := by
      intro k
      rw [div_pow, div_pow, hs2]
    rw [Finset.sum_congr rfl fun k _ => hrw k, ← Finset.sum_div,
      div_div_eq_mul_div, mul_comm, mul_div_assoc, div_self hssne, mul_one]
  · simp only [if_neg hcl]
    exact le_of_not_lt hcl

/-- Helper: every entry of an epsilon matrix drawn from a stream with values
in `[0, 1)` lies in `[0, 1 + EPSILON]`. -/
lemma eps_entry_bounds
    (sample : ℕ → ℕ → K)
    (hsample : ∀ sd i, 0 ≤ sample sd i ∧ sample sd i < 1)
    (r : Randomizer) (rows cols : ℕ) (i : Fin rows) (j : Fin cols) :
    0 ≤ (gen_epsilon_matrix sample r rows cols).1 i j
      ∧ (gen_epsilon_matrix sample r rows cols).1 i j ≤ 1 + EPSILON K := by
  unfold gen_epsilon_matrix gen_random_matrix
  simp only
  obtain ⟨hu0, hu1⟩ := hsample r.seed (r.idx + i.val * cols + j.val)
  set u := sample r.seed (r.idx + i.val * cols + j.val) with hu
  have heps0 : (0 : K) < EPSILON K := by
    rw [EPSILON]
    norm_num
  have heps1 : EPSILON K ≤ 1 := by
    rw [EPSILON]
    norm_num
  have hfac : (1 + EPSILON K - (1 - EPSILON K)) = 2 * EPSILON K := by ring
  rw [hfac]
  have h1 : 0 ≤ 2 * EPSILON K * u := by
    have : (0 : K) ≤ 2 * EPSILON K := by linarith
    exact mul_nonneg this hu0
  have h2 : 2 * EPSILON K * u ≤ 2 * EPSILON K := by
    have hnn : (0 : K) ≤ 2 * EPSILON K := by linarith
    calc 2 * EPSILON K * u ≤ 2 * EPSILON K * 1 :=
          mul_le_mul_of_nonneg_left hu1.le hnn
      _ = 2 * EPSILON K := mul_one _
  constructor
  · linarith
  · linarith

/-- Helper: from a squared bound to a bound on the abstract square root. -/
lemma sqrt_le_of_sumsq_le
    (hsqrt : ∀ x : K, 0 ≤ x → 0 ≤ sqrt x ∧ sqrt x ^ 2 = x)
    (ss B : K) (hss : 0 ≤ ss) (hB : 0 ≤ B) (h : ss ≤ B ^ 2) :
    sqrt ss ≤ B := by
  obtain ⟨h0, h2⟩ := hsqrt ss hss
  nlinarith

/-- Helper: a clipped matrix multiplied entrywise by an epsilon matrix has
row sums of squares at most `(mx · (1 + EPSILON))²`. -/
lemma noised_clip_sumsq_le (sample : ℕ → ℕ → K)
    (hsqrt : ∀ x : K, 0 ≤ x → 0 ≤ sqrt x ∧ sqrt x ^ 2 = x)
    (hsample : ∀ sd i, 0 ≤ sample sd i ∧ sample sd i < 1)
    (X : Mat n d K) (r : Randomizer) (mx : K) (hmx : 0 < mx) (i : Fin n) :
    ∑ k, ((inplace_clip_by_abs sqrt X mx) i k
        * (gen_epsilon_matrix sample r n d).1 i k) ^ 2
      ≤ (mx * (1 + EPSILON K)) ^ 2 := by
  have hterm : ∀ k : Fin d,
      ((inplace_clip_by_abs sqrt X mx) i k
          * (gen_epsilon_matrix sample r n d).1 i k) ^ 2
        ≤ (inplace_clip_by_abs sqrt X mx) i k ^ 2
            * (1 + EPSILON K) ^ 2 := by
    intro k
    rw [mul_pow]
    have hb := eps_entry_bounds sample hsample r n d i k
    have he2 : ((gen_epsilon_matrix sample r n d).1 i k) ^ 2
        ≤ (1 + EPSILON K) ^ 2 := by nlinarith [hb.1, hb.2]
    exact mul_le_mul_of_nonneg_left he2 (sq_nonneg _)
  calc (∑ k, ((inplace_clip_by_abs sqrt X mx) i k
          * (gen_epsilon_matrix sample r n d).1 i k) ^ 2)
      ≤ ∑ k, (inplace_clip_by_abs sqrt X mx) i k ^ 2
          * (1 + EPSILON K) ^ 2 := Finset.sum_le_sum fun k _ => hterm k
    _ = (∑ k, (inplace_clip_by_abs sqrt X mx) i k ^ 2)
          * (1 + EPSILON K) ^ 2 := by rw [Finset.sum_mul]
    _ ≤ mx ^ 2 * (1 + EPSILON K) ^ 2 := by
          refine mul_le_mul_of_nonneg_right ?_ (sq_nonneg _)
          exact clip_sumsq_le sqrt hsqrt X mx hmx i
    _ = (mx * (1 + EPSILON K)) ^ 2 := by rw [mul_pow]

/-- Helper: the post-step acceleration matrix is a clipped matrix times an
epsilon matrix, and the post-step velocity matrix is a clipped matrix. -/
lemma step_particles_shapes (powK : K → K → K) (sample : ℕ → ℕ → K)
    (e : Engine n d m K) (t : K) :
    (∃ (X : Mat n d K) (r : Randomizer),
        (step_particles sqrt powK sample e t).state.a
          = fun i k => (inplace_clip_by_abs sqrt X e.cfg.a_max) i k
              * (gen_epsilon_matrix sample r n d).1 i k)
      ∧ ∃ V : Mat n d K,
          (step_particles sqrt powK sample e t).state.v
            = inplace_clip_by_abs sqrt V e.cfg.v_max :=
  ⟨⟨_, _, rfl⟩, ⟨_, rfl⟩⟩

end ClipBounds

/-- Helper: one loop iteration does not change the config. -/
lemma iterate_sim_step_cfg [LinearOrderedField K] (sqrt : K → K)
    (powK : K → K → K) (sample : ℕ → ℕ → K) (t : K) (e : Engine n d m K)
    (j : ℕ) : ((sim_step sqrt powK sample t)^[j] e).cfg = e.cfg := by
  induction j with
  | zero => rfl
  | succ j ih =>
    rw [Function.iterate_succ_apply']
    exact ih

/-- C2: for strictly positive `a_max` and `v_max` and a noise stream with
values in `[0, 1)`, every state snapshot recorded after at least one
simulation step has every particle's acceleration row norm at most
`a_max · (1 + ε)` and velocity row norm at most `v_max · (1 + ε)`, where
`ε = EPSILON = 1e-3` (the final noise multiplication happens on `A` after
clipping; `V` is clipped last, so it is within `v_max` outright). -/
theorem c2_clipping_invariant [LinearOrderedField K] (sqrt : K → K)
    (powK : K → K → K) (sample : ℕ → ℕ → K)
    (hsqrt : ∀ x : K, 0 ≤ x → 0 ≤ sqrt x ∧ sqrt x ^ 2 = x)
    (hsample : ∀ sd i, 0 ≤ sample sd i ∧ sample sd i < 1)
    (e : Engine n d m K) (ha : 0 < e.cfg.a_max) (hv : 0 < e.cfg.v_max)
    (t : K) (iterations skip : ℕ) :
    ∀ s ∈ ((Engine.run sqrt powK sample e t iterations skip).states.drop
        (if skip = 0 then 1 else 0)),
      ∀ i, sqrt (∑ k, s.a i k ^ 2) ≤ e.cfg.a_max * (1 + EPSILON K)
        ∧ sqrt (∑ k, s.v i k ^ 2) ≤ e.cfg.v_max * (1 + EPSILON K) := by
  intro s hs i
  have heps0 : (0 : K) < EPSILON K := by
    rw [EPSILON]
    norm_num
  rw [run_states_eq] at hs
  have hs2 : s ∈ ((List.range iterations).filter
      (fun j => decide (skip ≤ 1 + j))).map
        (fun j => ((sim_step sqrt powK sample t)^[j + 1] e).state) := by
    by_cases h0 : skip = 0
    · simpa [h0] using hs
    · simpa [h0] using hs
  obtain ⟨j, hj, rfl⟩ := List.mem_map.mp hs2
  have hstep : (sim_step sqrt powK sample t)^[j + 1] e
      = sim_step sqrt powK sample t ((sim_step sqrt powK sample t)^[j] e) :=
    Function.iterate_succ_apply' _ _ _
  set E := (sim_step sqrt powK sample t)^[j] e with hE
  have hacfg : E.cfg.a_max = e.cfg.a_max := by
    rw [hE, iterate_sim_step_cfg]
  have hvcfg : E.cfg.v_max = e.cfg.v_max := by
    rw [hE, iterate_sim_step_cfg]
  have haeq : ((sim_step sqrt powK sample t)^[j + 1] e).state.a
      = (step_particles sqrt powK sample E t).state.a := by
    rw [hstep]
    rfl
  have hveq : ((sim_step sqrt powK sample t)^[j + 1] e).state.v
      = (step_particles sqrt powK sample E t).state.v := by
    rw [hstep]
    rfl
  obtain ⟨⟨X, r, hXa⟩, ⟨V, hVv⟩⟩ := step_particles_shapes sqrt powK sample E t
  constructor
  · refine sqrt_le_of_sumsq_le sqrt hsqrt _ _ (sumsq_nonneg _ i) ?_ ?_
    · have : (0 : K) ≤ 1 + EPSILON K := by linarith
      exact mul_nonneg ha.le this
    · rw [haeq, hXa, hacfg]
      exact noised_clip_sumsq_le sqrt sample hsqrt hsample X r
        e.cfg.a_max ha i
  · refine sqrt_le_of_sumsq_le sqrt hsqrt _ _ (sumsq_nonneg _ i) ?_ ?_
    · have : (0 : K) ≤ 1 + EPSILON K := by linarith
      exact mul_nonneg hv.le this
    · have h1 : (∑ k, ((sim_step sqrt powK sample t)^[j + 1] e).state.v i k
          ^ 2) ≤ e.cfg.v_max ^ 2 := by
        rw [hveq, hVv, hvcfg]
        exact clip_sumsq_le sqrt hsqrt V e.cfg.v_max hv i
      have hvv : e.cfg.v_max ≤ e.cfg.v_max * (1 + EPSILON K) := by
        nlinarith
      have h2 : e.cfg.v_max ^ 2 ≤ (e.cfg.v_max * (1 + EPSILON K)) ^ 2 := by
        nlinarith [sq_nonneg e.cfg.v_max]
      linarith

/-- A concrete single-particle, one-dimensional, predator-free state over
the reals, used by the C2 witness. -/
def c2_state_re : State 1 1 0 ℝ :=
  ⟨fun _ _ => 0, fun _ _ => 0, fun _ _ => 0,
   fun _ _ => 0, fun _ _ => 0, fun _ _ => 0⟩

/-- A concrete all-ones configuration over the reals (`a_max = v_max = 1`),
used by the C2 witness. -/
def c2_config_re : Config 1 ℝ :=
  ⟨1, 1, 1, 1, 1, 1, 1, 1, 1, 1, fun _ _ => 1⟩

/-- C2 witness: the invariant instantiated at the real numbers with the
genuine square root, the constant-zero noise stream and a concrete engine
(`a_max = v_max = 1 > 0`), evaluated at the snapshot recorded after the
single simulation step and at particle 0. -/
theorem c2_clipping_invariant_witness :
    Real.sqrt (∑ k, (sim_step Real.sqrt (fun b _ => b) (fun _ _ => (0 : ℝ))
          1 (Engine.make c2_state_re c2_config_re)).state.a 0 k ^ 2)
        ≤ (Engine.make c2_state_re c2_config_re).cfg.a_max * (1 + EPSILON ℝ)
      ∧ Real.sqrt (∑ k, (sim_step Real.sqrt (fun b _ => b)
            (fun _ _ => (0 : ℝ)) 1
            (Engine.make c2_state_re c2_config_re)).state.v 0 k ^ 2)
        ≤ (Engine.make c2_state_re c2_config_re).cfg.v_max
            * (1 + EPSILON ℝ) := by
  have hmem : (sim_step Real.sqrt (fun b _ => b) (fun _ _ => (0 : ℝ)) 1
      (Engine.make c2_state_re c2_config_re)).state
      ∈ ((Engine.run Real.sqrt (fun b _ => b) (fun _ _ => (0 : ℝ))
          (Engine.make c2_state_re c2_config_re) 1 1 0).states.drop
            (if (0 : ℕ) = 0 then 1 else 0)) := by
    rw [run_states_eq]
    simp [show List.range 1 = [0] from rfl]
  exact c2_clipping_invariant Real.sqrt (fun b _ => b) (fun _ _ => 0)
    (fun x hx => ⟨Real.sqrt_nonneg x, Real.sq_sqrt hx⟩)
    (fun _ _ => ⟨le_refl 0, one_pos⟩)
    (Engine.make c2_state_re c2_config_re) one_pos one_pos 1 1 0
    _ hmem 0

/-- Helper: `natSqrtBelow 0 = 0`. -/
lemma natSqrtBelow_zero : natSqrtBelow 0 = 0 := by decide

/-- Helper: `natSqrtBelow 1 = 1`. -/
lemma natSqrtBelow_one : natSqrtBelow 1 = 1 := by decide

/-- Helper: `ratSqrt 0 = 0`, matching the real square root at `0`. -/
lemma ratSqrt_zero : ratSqrt 0 = 0 := by
  unfold ratSqrt
  norm_num [natSqrtBelow_zero, natSqrtBelow_one]

/-- Helper: `ratSqrt 1 = 1`, matching the real square root at `1`. -/
lemma ratSqrt_one : ratSqrt 1 = 1 := by
  unfold ratSqrt
  norm_num [natSqrtBelow_one]

/-- A single isolated particle, in one dimension, sitting at position `1`
(not the origin), with no predators. -/
def c5_state : State 1 1 0 ℚ :=
  ⟨fun _ _ => 1, fun _ _ => 0, fun _ _ => 0,
   fun _ _ => 0, fun _ _ => 0, fun _ _ => 0⟩

/-- Helper: the pairwise-distance matrix of the single particle is zero. -/
lemma c5_pdist : pdist ratSqrt c5_state.p = fun _ _ => 0 := by
  funext i j
  rw [Fin.eq_zero i, Fin.eq_zero j]
  unfold pdist c5_state
  norm_num [Fin.sum_univ_one, ratSqrt_zero]

/-- Helper: the cohesion urgency of the isolated particle of `c5_state`
under `witness_config` is the constant `-(999/1000)`: the empty weight row
makes its baricenter the origin, so the particle is pulled from `1` toward
`0`, scaled by the epsilon noise `1 - EPSILON` of a zero stream sample. -/
lemma u1_isolated_value (sample : ℕ → ℕ → ℚ) (r : Randomizer)
    (h0 : sample r.seed r.idx = 0) :
    (calculate_urgency1 sample r c5_state witness_config
        (pdist ratSqrt c5_state.p)).1 = fun _ _ => -(999 / 1000) := by
  funext i k
  rw [Fin.eq_zero i, Fin.eq_zero k]
  unfold calculate_urgency1
  simp only
  rw [Fin.sum_univ_one]
  have hw : urgency1_weights witness_config.d_max
      (pdist ratSqrt c5_state.p) 0 0 = 0 := by
    unfold urgency1_weights
    rw [if_neg]
    intro h
    have h1 := h.1
    rw [c5_pdist] at h1
    exact lt_irrefl 0 h1
  rw [hw]
  unfold gen_epsilon_matrix gen_random_matrix
  simp only [Fin.val_zero]
  norm_num [c5_state, witness_config, EPSILON, h0]

/-- Helper: the personal-space urgency of the isolated particle of
`c5_state` is zero (its weight row is empty). -/
lemma u2_isolated_zero (sample : ℕ → ℕ → ℚ) (r : Randomizer) :
    (calculate_urgency2 sample r c5_state witness_config
        (pdist ratSqrt c5_state.p)).1 = fun _ _ => 0 := by
  funext i k
  rw [Fin.eq_zero i, Fin.eq_zero k]
  unfold calculate_urgency2
  simp only
  rw [Fin.sum_univ_one]
  have hw : urgency2_weights witness_config.u2_dopt
      (pdist ratSqrt c5_state.p) 0 0 = 0 := by
    unfold urgency2_weights
    rw [if_neg]
    intro h
    have h1 := h.1
    rw [c5_pdist] at h1
    exact lt_irrefl 0 h1
  rw [hw]
  norm_num

/-- C5 counterexample: the isolated particle of `c5_state` (position `1`,
no neighbour in range) receives the cohesion urgency `-(999/1000) ≠ 0`: the
code pulls it toward the origin, not "exactly zero" as claimed. -/
theorem c5_isolated_cohesion_not_zero :
    (∀ j : Fin 1, ¬ urgency1_in_range witness_config.d_max
        (pdist ratSqrt c5_state.p) 0 j)
      ∧ (calculate_urgency1 (fun _ _ => 0) Randomizer.make c5_state
          witness_config (pdist ratSqrt c5_state.p)).1 0 0 = -(999 / 1000)
      ∧ (calculate_urgency1 (fun _ _ => 0) Randomizer.make c5_state
          witness_config (pdist ratSqrt c5_state.p)).1 0 0 ≠ 0 := by
  have hmask : ∀ j : Fin 1, ¬ urgency1_in_range witness_config.d_max
      (pdist ratSqrt c5_state.p) 0 j := by
    intro j h
    have h1 := h.1
    rw [c5_pdist] at h1
    exact lt_irrefl 0 h1
  have hval : (calculate_urgency1 (fun _ _ => (0 : ℚ)) Randomizer.make
      c5_state witness_config (pdist ratSqrt c5_state.p)).1 0 0
      = -(999 / 1000) := by
    rw [u1_isolated_value (fun _ _ => 0) Randomizer.make rfl]
  refine ⟨hmask, hval, ?_⟩
  rw [hval]
  norm_num

/-- One particle at the origin and one predator at distance `1`, in one
dimension. -/
def c7_state : State 1 1 1 ℚ :=
  ⟨fun _ _ => 0, fun _ _ => 0, fun _ _ => 0,
   fun _ _ => 1, fun _ _ => 0, fun _ _ => 0⟩

/-- A configuration with `u4_p = 2`, `u4_dmax = 2` and a weight row whose
column 2 (value `5`) differs from column 3 (value `7`). -/
def c7_config : Config 1 ℚ :=
  ⟨1, 1, 1, 1, 1, 1, 1, 1, 2, 2,
   fun _ j => if j = 2 then 5 else if j = 3 then 7 else 0⟩

/-- Helper: the particle-predator distance matrix of `c7_state` is the
constant `1`. -/
lemma c7_cdist : cdist ratSqrt c7_state.p c7_state.pred_p
    = fun _ _ => 1 := by
  funext i j
  rw [Fin.eq_zero i, Fin.eq_zero j]
  unfold cdist c7_state
  norm_num [Fin.sum_univ_one, ratSqrt_one]

/-- Helper: the predator weight of `c7_state` under `c7_config` is
`(2 - 1) / (2 * 1) = 1/2`. -/
lemma c7_weight : urgency4_weights c7_config.u4_dmax
    (cdist ratSqrt c7_state.p c7_state.pred_p) 0 0 = 1 / 2 := by
  unfold urgency4_weights
  rw [if_pos]
  · rw [c7_cdist]
    norm_num [c7_config]
  · constructor
    · rw [c7_cdist]
      norm_num
    · rw [c7_cdist]
      norm_num [c7_config]

/-- C7 (code evaluation): at the concrete input the code's predator-escape
urgency is `-(6993/1000)` — it multiplies by `uw[0, 3] = 7` —, while the
claim's formula with column 2 (`uw[0, 2] = 5`) gives `-(4995/1000)`; the
two differ.  Moreover the constructor's shape check rejects an `(N, 3)`
weight matrix, the shape the claim asserts (`K = 3`). -/
theorem c7_code_uses_column3 :
    (calculate_urgency4 ratSqrt (fun _ _ => 0) Randomizer.make c7_state
        c7_config).1 0 0 = -(6993 / 1000)
      ∧ (urgency3_claimed ratSqrt (fun _ _ => 0) Randomizer.make c7_state
          c7_config).1 0 0 = -(4995 / 1000)
      ∧ (calculate_urgency4 ratSqrt (fun _ _ => 0) Randomizer.make c7_state
          c7_config).1 0 0
        ≠ (urgency3_claimed ratSqrt (fun _ _ => 0) Randomizer.make c7_state
            c7_config).1 0 0
      ∧ engine_shapes_ok (1, 1) (1, 1) (1, 1) (1, 3) = false := by
  have huw3 : c7_config.uw 0 3 = 7 := by
    unfold c7_config
    simp only
    rw [if_neg (by decide)]
    simp
  have huw2 : c7_config.uw 0 2 = 5 := by
    unfold c7_config
    simp
  have hcode : (calculate_urgency4 ratSqrt (fun _ _ => 0) Randomizer.make
      c7_state c7_config).1 0 0 = -(6993 / 1000) := by
    unfold calculate_urgency4
    simp only
    rw [Fin.sum_univ_one, c7_weight, huw3]
    unfold gen_epsilon_matrix gen_random_matrix
    simp only [Fin.val_zero]
    norm_num [c7_state, c7_config, EPSILON]
  have hclaim : (urgency3_claimed ratSqrt (fun _ _ => 0) Randomizer.make
      c7_state c7_config).1 0 0 = -(4995 / 1000) := by
    unfold urgency3_claimed
    simp only
    rw [Fin.sum_univ_one, c7_weight, huw2]
    unfold gen_epsilon_matrix gen_random_matrix
    simp only [Fin.val_zero]
    norm_num [c7_state, c7_config, EPSILON]
  refine ⟨hcode, hclaim, ?_, by decide⟩
  rw [hcode, hclaim]
  norm_num

/-- The noise stream used by the C6 counterexample: sample `i` is `i / 10`
(in `[0, 1)` for every index consumed by one iteration). -/
def c6_sample : ℕ → ℕ → ℚ := fun _ i => (i : ℚ) / 10

/-- Helper: a `(1, 1)` epsilon matrix is the constant
`2ε · sample(seed, idx) + (1 - ε)`. -/
lemma gen_eps11 (sample : ℕ → ℕ → ℚ) (r : Randomizer) :
    (gen_epsilon_matrix sample r 1 1).1
      = fun _ _ => 2 * EPSILON ℚ * sample r.seed r.idx + (1 - EPSILON ℚ) := by
  funext i k
  rw [Fin.eq_zero i, Fin.eq_zero k]
  unfold gen_epsilon_matrix gen_random_matrix
  simp only [Fin.val_zero, Nat.zero_mul, Nat.add_zero]
  ring

/-- Helper: clipping a constant `(1, 1)` matrix within the bound leaves it
unchanged. -/
lemma clip11_const (x mx : ℚ) (h : ¬ x ^ 2 > mx ^ 2) :
    inplace_clip_by_abs ratSqrt (fun _ _ => x : Mat 1 1 ℚ) mx
      = fun _ _ => x := by
  funext i k
  unfold inplace_clip_by_abs
  simp only
  rw [if_neg]
  intro hc
  apply h
  simpa [Fin.sum_univ_one] using hc

/-- Helper: the PRNG advance of the cohesion urgency. -/
lemma urgency1_rand [LinearOrderedField K] (sample : ℕ → ℕ → K)
    (r : Randomizer) (s : State n d m K) (cfg : Config n K)
    (D : Matrix (Fin n) (Fin n) K) :
    (calculate_urgency1 sample r s cfg D).2 = ⟨r.seed, r.idx + n * d⟩ := rfl

/-- Helper: the PRNG advance of the personal-space urgency. -/
lemma urgency2_rand [LinearOrderedField K] (sample : ℕ → ℕ → K)
    (r : Randomizer) (s : State n d m K) (cfg : Config n K)
    (D : Matrix (Fin n) (Fin n) K) :
    (calculate_urgency2 sample r s cfg D).2 = ⟨r.seed, r.idx + n * d⟩ := rfl

/-- Helper: the PRNG advance of the predator-escape urgency (an `(n, d)`
draw, consumed even when there are no predators). -/
lemma urgency4_rand [LinearOrderedField K] (sqrt : K → K)
    (sample : ℕ → ℕ → K) (r : Randomizer) (s : State n d m K)
    (cfg : Config n K) :
    (calculate_urgency4 sqrt sample r s cfg).2 = ⟨r.seed, r.idx + n * d⟩ :=
  rfl

/-- Helper: the position of the isolated particle after one full engine
iteration under the `c6_sample` stream: the final-acceleration noise draw is
stream sample 3 (after the three urgency draws), giving
`p = 1 - (999/1000) · (2ε · 3/10 + 1 - ε) = 3499/2500000`. -/
lemma c6_full_p :
    (sim_step ratSqrt (fun b _ => b) c6_sample 1
        (Engine.make c5_state witness_config)).state.p 0 0
      = 3499 / 2500000 := by
  have hstep : sim_step ratSqrt (fun b _ => b) c6_sample 1
      (Engine.make c5_state witness_config)
      = step_particles ratSqrt (fun b _ => b) c6_sample
          (Engine.make c5_state witness_config) 1 := by
    unfold sim_step
    rw [step_predators_no_predators]
  rw [hstep]
  unfold step_particles
  simp only [Engine.make]
  rw [u1_isolated_value c6_sample Randomizer.make
      (by norm_num [c6_sample, Randomizer.make]),
    u2_isolated_zero c6_sample,
    urgency4_no_predators ratSqrt c6_sample]
  simp only [urgency1_rand, urgency2_rand, urgency4_rand, Randomizer.make]
  rw [gen_eps11 c6_sample]
  norm_num [witness_config, c5_state, c6_sample, EPSILON, clip11_const]

/-- Helper: the position of the isolated particle after one iteration of
the variant that omits predator handling entirely: its final-acceleration
noise draw is stream sample 2 (only two urgency draws precede it), giving
`p = 1 - (999/1000) · (2ε · 2/10 + 1 - ε) = 7997/5000000`. -/
lemma c6_variant_p :
    (step_particles_no_predator_handling ratSqrt (fun b _ => b) c6_sample
        (Engine.make c5_state witness_config) 1).state.p 0 0
      = 7997 / 5000000 := by
  unfold step_particles_no_predator_handling
  simp only [Engine.make]
  rw [u1_isolated_value c6_sample Randomizer.make
      (by norm_num [c6_sample, Randomizer.make]),
    u2_isolated_zero c6_sample]
  simp only [urgency1_rand, urgency2_rand, Randomizer.make]
  rw [gen_eps11 c6_sample]
  norm_num [witness_config, c5_state, c6_sample, EPSILON, clip11_const]

/-- C6 counterexample: from the same initial state, config and noise
stream, one iteration of the engine and one iteration of the variant that
omits predator handling entirely produce different particle trajectories,
even though there are zero predators: the predator-escape computation draws
an `(n, d)` epsilon matrix even when `M = 0`, so omitting it shifts the
noise stream consumed by the final-acceleration draw. -/
theorem c6_full_omission_changes_trajectory :
    (Engine.run ratSqrt (fun b _ => b) c6_sample
        (Engine.make c5_state witness_config) 1 1 0).states.map State.p
      ≠ (run_no_predator_handling ratSqrt (fun b _ => b) c6_sample
          (Engine.make c5_state witness_config) 1 1 0).states.map
          State.p := by
  have h1 : (Engine.run ratSqrt (fun b _ => b) c6_sample
      (Engine.make c5_state witness_config) 1 1 0).states
      = [c5_state,
         (sim_step ratSqrt (fun b _ => b) c6_sample 1
            (Engine.make c5_state witness_config)).state] := by
    rw [run_states_eq]
    simp [show List.range 1 = [0] from rfl, Engine.make]
  have h2 : (run_no_predator_handling ratSqrt (fun b _ => b) c6_sample
      (Engine.make c5_state witness_config) 1 1 0).states
      = [c5_state,
         (step_particles_no_predator_handling ratSqrt (fun b _ => b)
            c6_sample (Engine.make c5_state witness_config) 1).state] := by
    unfold run_no_predator_handling
    rw [run_loop_eq_filter]
    simp [show List.range 1 = [0] from rfl, Engine.make]
  rw [h1, h2]
  simp only [List.map_cons, List.map_nil]
  intro h
  have hb : (sim_step ratSqrt (fun b _ => b) c6_sample 1
      (Engine.make c5_state witness_config)).state.p
      = (step_particles_no_predator_handling ratSqrt (fun b _ => b)
          c6_sample (Engine.make c5_state witness_config) 1).state.p := by
    have h3 := h
    simp only [List.cons.injEq, and_true] at h3
    exact h3.2
  have hval := congrFun (congrFun hb 0) 0
  rw [c6_full_p, c6_variant_p] at hval
  norm_num at hval

/-- C5 witness: the guard facts instantiated at the concrete isolated
particle: its cohesion weight row is zero. -/
theorem c5_mask_guards_and_isolated_witness :
    urgency1_weights witness_config.d_max (pdist ratSqrt c5_state.p) 0 0
      = 0 :=
  ((c5_mask_guards_and_isolated ratSqrt (fun _ _ => 0) Randomizer.make
      c5_state witness_config (pdist ratSqrt c5_state.p)
      (fun _ _ => 0)).2.2.2.2 0
    (fun j h => absurd (c5_pdist ▸ h.1) (lt_irrefl 0))).1 0

/-- C9 witness: the shape check instantiated at concrete consistent
shapes accepts. -/
theorem c9_validation_is_shapes_only_witness :
    engine_shapes_ok (1, 1) (1, 1) (1, 1) (1, 4) = true :=
  ((c9_validation_is_shapes_only (1, 1) (1, 1) (1, 1) (1, 4) witness_state
      witness_config).1).mpr ⟨rfl, rfl, rfl⟩

end FishSim
